import Mathlib

/-!
Verification development for the museum-demo repository.

This file gives a shallow embedding, in Lean 4, of the text-extraction and
ETL-merge core of the repository (src/clients/wikipedia.py,
src/etl/pipeline.py, src/ml/features.py, src/api/main.py) and proves or
refutes the frozen specification claims about it.

Strings from the scraped cells are modelled as lists of characters.  The
regular-expression substitutions and searches of the Python code are
modelled by explicit left-to-right scanners that reproduce the exact
matching policy of the CPython re module on the patterns that occur in the
source (greedy and lazy quantifiers are resolved by hand for each concrete
pattern, as documented at each definition).  Machine floats appear in the
source only as intermediate values of exact decimal literals; the model
computes with exact rational arithmetic realised on natural numbers
(numerator and power-of-ten denominator) and the accompanying comments
state where this coincides with binary64 evaluation.
-/

namespace MuseumDemo

/-- Python whitespace for str.strip and the regex class backslash-s,
restricted to the ASCII characters that can occur in the modelled inputs. -/
def pyWs (c : Char) : Bool :=
  c = ' ' || c = '\t' || c = '\n' || c = '\r' || c = '\x0b' || c = '\x0c'

/-- ASCII letter, the character class a-zA-Z of the unit-word group. -/
def asciiAlpha (c : Char) : Bool :=
  ('a' ≤ c && c ≤ 'z') || ('A' ≤ c && c ≤ 'Z')

/-- Left strip: drop leading Python whitespace. -/
def lstrip (s : List Char) : List Char := s.dropWhile pyWs

/-- Right strip: drop trailing Python whitespace. -/
def rstrip (s : List Char) : List Char := (s.reverse.dropWhile pyWs).reverse

/-- Model of the Python str.strip() method (no argument form). -/
def stripL (s : List Char) : List Char := rstrip (lstrip s)

/-- Numeric value of a digit string read in base 10 (leading zeros allowed),
as produced by int() on a digit-only string. -/
def digitsToNat (ds : List Char) : Nat :=
  ds.foldl (fun a c => a * 10 + (c.toNat - '0'.toNat)) 0

/-!
Model of clean_html (src/clients/wikipedia.py, lines 157-184).

clean_html parses its input with BeautifulSoup (html.parser), removes
sup.reference and img elements, takes get_text(), then applies in order:
re.sub removing bracketed footnote markers matching backslash-bracket
digits backslash-bracket, re.sub removing markdown image constructs,
str.replace removing double-quote characters, and str.strip.

The BeautifulSoup stage is the identity on text that contains no markup:
on a string without the characters < and &, html.parser produces a single
text node, there are no sup or img elements to remove, and get_text
returns the input unchanged.  The model below embeds clean_html on that
markup-free fragment: the soup stage is dropped and the four text passes
are modelled exactly.  All concrete inputs used in theorems of this file
are markup-free.
-/

/-- After an opening bracket, try to match the rest of the footnote-marker
pattern: one or more digits then a closing bracket.  The regex engine takes
the maximal digit run; if the next character is not a closing bracket no
backtracking can help, because any shorter digit run is followed by a
digit.  Returns the suffix after the match. -/
def refScan (t : List Char) : Option (List Char) :=
  let ds := t.takeWhile Char.isDigit
  if ds.isEmpty then none
  else
    match t.drop ds.length with
    | ']' :: r => some r
    | _ => none

/-- Fuel-driven scanner for re.sub removing footnote markers: at each
position try the pattern; on a match continue after it, otherwise emit the
character and move one position right.  Fuel at least the length of the
list is always sufficient since every step consumes at least one
character. -/
def removeRefsF : Nat → List Char → List Char
  | 0, s => s
  | _ + 1, [] => []
  | fuel + 1, '[' :: t =>
    match refScan t with
    | some rest => removeRefsF fuel rest
    | none => '[' :: removeRefsF fuel t
  | fuel + 1, c :: t => c :: removeRefsF fuel t

/-- re.sub removing bracketed footnote markers such as [1] or [27]. -/
def removeRefs (s : List Char) : List Char := removeRefsF s.length s

/-- Greedy body of the parenthesised group of the markdown-image pattern:
one or more characters other than a closing parenthesis, then a closing
parenthesis.  The greedy run stops at the first closing parenthesis, and
shorter runs end on characters the closing parenthesis cannot match, so
the match is exactly the text up to the first closing parenthesis, which
must exist and must not come immediately after the opening parenthesis. -/
def parenBody (b : List Char) : Option (List Char) :=
  let run := b.takeWhile (fun c => !(c = ')'))
  if run.isEmpty then none
  else
    match b.drop run.length with
    | ')' :: r => some r
    | _ => none

/-- Lazy search inside the markdown-image pattern: after the exclamation
mark and opening bracket, the lazy dot-star tries ever longer prefixes
(dot does not match a newline), each time requiring a closing bracket, an
opening parenthesis and a parenthesised body.  On a body failure the lazy
star extends past the closing bracket and the search continues; a closing
bracket can never start at the following opening parenthesis, so the scan
resumes one character later. -/
def mdSeekF : Nat → List Char → Option (List Char)
  | 0, _ => none
  | _ + 1, [] => none
  | fuel + 1, ']' :: '(' :: b =>
    match parenBody b with
    | some rest => some rest
    | none => mdSeekF fuel ('(' :: b)
  | fuel + 1, c :: t => if c = '\n' then none else mdSeekF fuel t

/-- Entry point of the lazy search: every step of mdSeekF consumes exactly
one character, so fuel equal to the length of the list is exact. -/
def mdSeek (s : List Char) : Option (List Char) := mdSeekF s.length s

/-- Try to match the markdown-image pattern at the head of the list:
exclamation mark, opening bracket, lazy run, closing bracket, opening
parenthesis, body, closing parenthesis.  Returns the suffix after the
match. -/
def mdTail : List Char → Option (List Char)
  | '!' :: '[' :: t => mdSeek t
  | _ => none

/-- Fuel-driven scanner for re.sub removing markdown image constructs. -/
def removeMdF : Nat → List Char → List Char
  | 0, s => s
  | _ + 1, [] => []
  | fuel + 1, c :: t =>
    match mdTail (c :: t) with
    | some rest => removeMdF fuel rest
    | none => c :: removeMdF fuel t

/-- re.sub removing markdown-style image constructs. -/
def removeMd (s : List Char) : List Char := removeMdF s.length s

/-- str.replace removing all double-quote characters. -/
def removeQuotes (s : List Char) : List Char := s.filter (fun c => !(c = '"'))

/-- Model of clean_html on markup-free text (see the section comment):
the guard for falsy input, then footnote-marker removal, markdown-image
removal, quote removal and strip, in the order of the source. -/
def clean_html (s : List Char) : List Char :=
  if s.isEmpty then []
  else stripL (removeQuotes (removeMd (removeRefs s)))

/-!
Model of _extract_visitor_count (src/clients/wikipedia.py, lines 104-155).
-/

/-- Lazy parenthesis scan for re.sub removing parenthesised segments: the
lazy dot-star stops at the first closing parenthesis after the opening
one, and fails if a newline (which dot cannot match) or the end of the
input comes first.  Returns the suffix after the closing parenthesis. -/
def parenScan : List Char → Option (List Char)
  | [] => none
  | ')' :: t => some t
  | c :: t => if c = '\n' then none else parenScan t

/-- Fuel-driven scanner for re.sub removing parenthesised segments, for
example turning 8,700,000 (2019) into 8,700,000 followed by a space. -/
def removeParensF : Nat → List Char → List Char
  | 0, s => s
  | _ + 1, [] => []
  | fuel + 1, '(' :: t =>
    match parenScan t with
    | some rest => removeParensF fuel rest
    | none => '(' :: removeParensF fuel t
  | fuel + 1, c :: t => c :: removeParensF fuel t

/-- re.sub removing parenthesised segments (lazy, per the source regex). -/
def removeParens (s : List Char) : List Char := removeParensF s.length s

/-- Character class of the first group of the number pattern: a digit or a
comma. -/
def numChar (c : Char) : Bool := c.isDigit || c = ','

/-- The number-and-unit pattern anchored at the current position: group
one is the maximal run of digits and commas, optionally followed by a dot
and a maximal digit run; then maximal whitespace; then group two, a
maximal run of ASCII letters, absent when empty.  The trailing parts of
the pattern are all optional or star-quantified, so once group one is
non-empty the whole pattern matches without backtracking. -/
def numUnitAt (s : List Char) : List Char × Option (List Char) :=
  let run := s.takeWhile numChar
  let r1 := s.drop run.length
  let (g1, rest) :=
    match r1 with
    | '.' :: t2 =>
      let ds := t2.takeWhile Char.isDigit
      (run ++ '.' :: ds, t2.drop ds.length)
    | _ => (run, r1)
  let rest2 := rest.dropWhile pyWs
  let letters := rest2.takeWhile asciiAlpha
  (g1, if letters.isEmpty then none else some letters)

/-- re.search for the number-and-unit pattern: the match starts at the
first position whose character the first group can consume, that is the
first digit or comma. -/
def findNumberUnit : List Char → Option (List Char × Option (List Char))
  | [] => none
  | c :: t => if numChar c then some (numUnitAt (c :: t)) else findNumberUnit t

/-- Model of _is_valid_float on the strings reachable here: after comma
removal the candidate consists of digits and at most one dot, and Python
float() accepts exactly the non-empty such strings holding at least one
digit (the bare dot and the empty string raise ValueError; no sign,
exponent or underscores can occur in a group-one match). -/
def validFloat (np : List Char) : Bool :=
  np.any Char.isDigit && np.all (fun c => c.isDigit || c = '.')
    && (np.filter (fun c => c = '.')).length ≤ 1

/-- Split a digits-and-dot string into its integer and fractional digit
parts. -/
def splitFrac (np : List Char) : List Char × List Char :=
  match np.dropWhile (fun c => !(c = '.')) with
  | _ :: frac => (np.takeWhile (fun c => !(c = '.')), frac)
  | [] => (np, [])

/-- Exact value of the parsed decimal as a numerator and a power-of-ten
denominator.  The Python source holds this value in a binary64 float; on
every concrete input appearing in the theorems of this file the decimal
value and the products with the unit multipliers are exactly representable
in binary64, so the exact arithmetic below coincides with the source. -/
def floatNumDen (np : List Char) : Nat × Nat :=
  let (ip, fp) := splitFrac np
  (digitsToNat ip * 10 ^ fp.length + digitsToNat fp, 10 ^ fp.length)

/-- Model of _extract_visitor_count: strip parenthesised segments, search
for the number-and-unit pattern, drop commas, validate the float, and
apply the unit multiplier with truncation to integer.  The negativity
check of the source is vacuous here, as in the source: the sign character
is never part of a group-one match, so the parsed value is non-negative;
int() on a non-negative float truncates, which Nat division realises
exactly. -/
def extract_visitor_count (s : List Char) : Nat :=
  let s1 := removeParens s
  match findNumberUnit s1 with
  | none => 0
  | some (g1, unitOpt) =>
    let np := g1.filter (fun c => !(c = ','))
    if validFloat np then
      let nd := floatNumDen np
      match unitOpt with
      | none => nd.1 / nd.2
      | some u =>
        let unit := (stripL u).map Char.toLower
        if unit = "thousand".data then nd.1 * 1000 / nd.2
        else if unit = "million".data then nd.1 * 1000000 / nd.2
        else if unit = "billion".data then nd.1 * 1000000000 / nd.2
        else nd.1 / nd.2
    else 0

/-- Try to match the embedded-year pattern at the head of the list: an
opening parenthesis, exactly four digits, a closing parenthesis. -/
def yearAt : List Char → Option Nat
  | '(' :: d1 :: d2 :: d3 :: d4 :: ')' :: _ =>
    if d1.isDigit && d2.isDigit && d3.isDigit && d4.isDigit then
      some (digitsToNat [d1, d2, d3, d4])
    else none
  | _ => none

/-- re.search for the embedded-year pattern in a visitor cell, as in
_extract_museum_from_cells: the year of the first match, or zero when
there is none. -/
def findYear : List Char → Nat
  | [] => 0
  | c :: t =>
    match yearAt (c :: t) with
    | some y => y
    | none => findYear t

/-!
Model of _extract_museum_from_cells (src/clients/wikipedia.py, lines
187-231).  A table cell is modelled by its rendered text (the value of
get_text on the bs4 element); clean_html applies to it as above.  The
try/except of the source only guards attribute and conversion errors that
cannot arise for text cells, so the model is total.
-/

/-- Candidate museum record, the dict returned on success. -/
structure MuseumRecord where
  name : List Char
  city : List Char
  country : List Char
  visitors : Nat
  year : Nat
  source : List Char
deriving DecidableEq, Repr

/-- Model of _extract_museum_from_cells: fewer than four cells is
rejected; the name comes from cell 0, the visitor count and embedded year
from cell 1, the city and country from cells 2 and 3 with a further
strip; a count under two million is rejected, then an empty name, city or
country (Python falsiness of the empty string) is rejected; otherwise the
full record is returned with the provenance tag. -/
def extract_museum_from_cells (cells : List (List Char)) : Option MuseumRecord :=
  if cells.length < 4 then none
  else if extract_visitor_count (clean_html (cells.getD 1 [])) < 2000000 then none
  else if clean_html (cells.getD 0 []) = [] ∨
      stripL (clean_html (cells.getD 2 [])) = [] ∨
      stripL (clean_html (cells.getD 3 [])) = [] then none
  else some ⟨clean_html (cells.getD 0 []),
    stripL (clean_html (cells.getD 2 [])),
    stripL (clean_html (cells.getD 3 [])),
    extract_visitor_count (clean_html (cells.getD 1 [])),
    findYear (clean_html (cells.getD 1 [])),
    "wikipedia_api".data⟩

/-!
Model of the ETL pipeline (src/etl/pipeline.py) over a relational store.

The store holds the three tables as lists in insertion order together
with the autoincrement counters.  SQLAlchemy queries with first() return
the first row in insertion order; with autoflush, rows added earlier in
the same session are visible to later queries, which the list model
realises directly.  Exceptions modelled away are noted per definition.
-/

/-- A resolved population record: the non-empty dict produced either from
a cached City row or from a successful Wikidata lookup with an integer
year.  The empty dict that the resolver produces on a failed lookup is
modelled as the absent case of an Option around this structure. -/
structure PopRec where
  population : Nat
  year : Nat
  wikidataId : Option (List Char)
deriving DecidableEq, Repr

/-- A row of the cities table (the columns the pipeline writes). -/
structure CityRow where
  id : Nat
  name : List Char
  country : List Char
  population : Nat
  populationYear : Nat
  wikidataId : Option (List Char)
deriving DecidableEq, Repr

/-- A row of the museums table (the columns the pipeline writes). -/
structure MuseumRow where
  id : Nat
  name : List Char
  cityId : Option Nat
deriving DecidableEq, Repr

/-- A row of the museum_stats table (the columns the pipeline writes). -/
structure StatRow where
  museumId : Nat
  year : Nat
  visitors : Nat
deriving DecidableEq, Repr

/-- The persistent store: three tables in insertion order plus the
autoincrement counters. -/
structure Store where
  cities : List CityRow
  museums : List MuseumRow
  stats : List StatRow
  nextCityId : Nat
  nextMuseumId : Nat
deriving DecidableEq, Repr

/-- A store with empty tables and fresh autoincrement counters. -/
def emptyStore : Store := ⟨[], [], [], 1, 1⟩

/-- Lower-casing of ASCII text, for the case-insensitive fallback match. -/
def lowerL (s : List Char) : List Char := s.map Char.toLower

/-- Contiguous-substring test: the needle occurs as a prefix of some
suffix of the haystack; the empty needle occurs everywhere, as with the
Python in operator on strings. -/
def substrAt : List Char → List Char → Bool
  | needle, [] => needle.isEmpty
  | needle, h :: t => needle.isPrefixOf (h :: t) || substrAt needle t

/-- The Python substring test a.lower() in b.lower(). -/
def substrCI (a b : List Char) : Bool := substrAt (lowerL a) (lowerL b)

/-- Model of the population lookup in _get_or_create_city (lines 97-105):
exact dictionary lookup by city name first; when the key is missing or its
value is the empty dict, a scan of the items in insertion order taking the
first key related to the city name by case-insensitive substring
containment in either direction — taking its value even when that value is
itself the empty dict, since the loop breaks unconditionally. -/
def lookupPop (pops : List (List Char × Option PopRec)) (cityName : List Char) :
    Option PopRec :=
  match pops.find? (fun kv => kv.1 == cityName) with
  | some (_, some p) => some p
  | _ =>
    match pops.find? (fun kv => substrCI cityName kv.1 || substrCI kv.1 cityName) with
    | some (_, v) => v
    | none => none

/-- The filter of the city get-or-create query: equal name and country. -/
def cityMatches (md : MuseumRecord) (c : CityRow) : Bool :=
  c.name == md.city && c.country == md.country

/-- The City row that _get_or_create_city builds when no existing row
matches: population defaults to 0, population year to 2023 and the
external identifier to absent when no population data was resolved. -/
def newCityRow (st : Store) (md : MuseumRecord)
    (pops : List (List Char × Option PopRec)) : CityRow :=
  { id := st.nextCityId, name := md.city, country := md.country,
    population := match lookupPop pops md.city with | some p => p.population | none => 0,
    populationYear := match lookupPop pops md.city with | some p => p.year | none => 2023,
    wikidataId := match lookupPop pops md.city with | some p => p.wikidataId | none => none }

/-- The filter of the museum get-or-create query: equal name and city
reference. -/
def museumMatches (name : List Char) (cid : Option Nat) (m : MuseumRow) : Bool :=
  m.name == name && m.cityId == cid

/-- The Museum row that _create_museum builds when no existing row
matches: the fresh id, the record name and the owning city reference. -/
def newMuseumRow (st : Store) (md : MuseumRecord) (c : CityRow) : MuseumRow :=
  ⟨st.nextMuseumId, md.name, some c.id⟩

/-!
Session model.  src/db/session.py builds sessions with autoflush=False,
so queries see only rows that have been flushed; rows added but not yet
flushed stay pending and are invisible to queries.  The pipeline flushes
explicitly — and a flush writes every pending row of the session — only
inside _get_or_create_city and _create_museum, right after adding the new
city or museum; _create_museum_stats only adds, so stat rows stay pending
until the next city- or museum-creating flush, or until the final commit.

A flush whose pending stat rows collide on the unique (museum_id, year)
key raises IntegrityError.  Raised inside _get_or_create_city, which has
no handler, it reaches the per-record handler of the loop, which merely
continues: nobody rolls back, so every later statement of the session
raises PendingRollbackError and the closing commit fails.  Raised inside
_create_museum, its own handler calls db.rollback — undoing every
uncommitted row of the transaction — and returns None.  The configured
store is Postgres, whose id sequences do not roll back, so the id
counters only grow.  The session state below carries the flushed store,
the pending stat rows, the poisoned flag (failed flush never rolled
back), and an instrumentation flag recording whether any IntegrityError
occurred at all; the failed flag influences no behaviour and exists so
that theorems can state their no-database-error hypotheses.
-/

/-- The state of the one ORM session a run holds: the flushed rows
visible to queries, the pending stat rows, and the two flags. -/
structure Sess where
  cur : Store
  pending : List StatRow
  poisoned : Bool
  failed : Bool
deriving DecidableEq, Repr

/-- The session at the start of the persisting block, over the committed
store. -/
def initSess (st : Store) : Sess := ⟨st, [], false, false⟩

/-- The key of the uq_museum_year unique constraint. -/
def statKey (s : StatRow) : Nat × Nat := (s.museumId, s.year)

/-- Whether inserting the given rows one by one into a table already
holding the seen keys hits the unique key twice. -/
def insertConflict : List (Nat × Nat) → List StatRow → Bool
  | _, [] => false
  | seen, s :: rest =>
    decide (statKey s ∈ seen) || insertConflict (statKey s :: seen) rest

/-- Whether flushing the pending stat rows into the flushed stats table
violates the unique (museum_id, year) constraint. -/
def statConflict (stats pend : List StatRow) : Bool :=
  insertConflict (stats.map statKey) pend

/-- Model of _get_or_create_city (src/etl/pipeline.py, lines 83-121) over
the session: on a poisoned session the opening query raises (None, record
skipped by the loop handler).  Otherwise return the first flushed City
row with the same name and country; on a miss, add the new row — with the
population defaults of newCityRow — and flush, which also writes all
pending stat rows: if those collide on (museum_id, year) the flush raises
out of this handler-less function and the session is left poisoned. -/
def get_or_create_city (pops : List (List Char × Option PopRec))
    (sess : Sess) (md : MuseumRecord) : Sess × Option CityRow :=
  if sess.poisoned then (sess, none)
  else
    match sess.cur.cities.find? (cityMatches md) with
    | some c => (sess, some c)
    | none =>
      if statConflict sess.cur.stats sess.pending then
        ({ sess with poisoned := true, failed := true }, none)
      else
        ({ sess with
            cur := { sess.cur with
              cities := sess.cur.cities ++ [newCityRow sess.cur md pops]
              stats := sess.cur.stats ++ sess.pending
              nextCityId := sess.cur.nextCityId + 1 }
            pending := [] },
          some (newCityRow sess.cur md pops))

/-- Model of _create_museum (lines 124-156) over the session: return the
first flushed Museum row with the same name and city id; on a miss, add
the new row and flush, which also writes the pending stat rows.  When
that flush raises IntegrityError the local handler calls db.rollback —
the flushed view falls back to the committed base store, pending rows are
discarded, the Postgres id sequences keep their values — and None is
returned. -/
def create_museum (base : Store) (sess : Sess) (md : MuseumRecord)
    (c : CityRow) : Sess × Option MuseumRow :=
  match sess.cur.museums.find? (museumMatches md.name (some c.id)) with
  | some m => (sess, some m)
  | none =>
    if statConflict sess.cur.stats sess.pending then
      (⟨{ base with
          nextCityId := sess.cur.nextCityId
          nextMuseumId := sess.cur.nextMuseumId + 1 },
        [], false, true⟩, none)
    else
      ({ sess with
          cur := { sess.cur with
            museums := sess.cur.museums ++ [newMuseumRow sess.cur md c]
            stats := sess.cur.stats ++ sess.pending
            nextMuseumId := sess.cur.nextMuseumId + 1 }
          pending := [] },
        some (newMuseumRow sess.cur md c))

/-- Model of _create_museum_stats (lines 159-184) over the session: the
existence check is keyed by the museum id alone and, with autoflush off,
consults only flushed rows; pending same-run rows are invisible to it.
On a miss the new stat row is added pending — never flushed here. -/
def create_museum_stats (sess : Sess) (m : MuseumRow) (md : MuseumRecord) :
    Sess :=
  if (sess.cur.stats.find? (fun s => s.museumId == m.id)).isSome then sess
  else { sess with pending := sess.pending ++ [⟨m.id, md.year, md.visitors⟩] }

/-- The museum and stat phases of one loop iteration, factored out for
the proofs: the returned flag records whether a museum object came back
(None only on a rolled-back creation), in which case the stat phase is
skipped. -/
def recordTail (base : Store) (md : MuseumRecord) (c : CityRow) (sess : Sess) :
    Sess × Bool :=
  match create_museum base sess md c with
  | (sess2, none) => (sess2, false)
  | (sess2, some m) => (create_museum_stats sess2 m md, true)

/-- One iteration of the persisting loop of _run_async_etl (lines 55-72):
city phase (an exception skips the record), city counted when truthy,
then the museum and stat phases, with the museum counted only when a
museum object came back. -/
def processRecord (pops : List (List Char × Option PopRec)) (base : Store)
    (acc : Sess × Nat × Nat) (md : MuseumRecord) : Sess × Nat × Nat :=
  match get_or_create_city pops acc.1 md with
  | (sess1, none) => (sess1, acc.2.1, acc.2.2)
  | (sess1, some c) =>
    match recordTail base md c sess1 with
    | (sess2, false) => (sess2, acc.2.1, acc.2.2 + 1)
    | (sess2, true) => (sess2, acc.2.1 + 1, acc.2.2 + 1)

/-- The persisting loop over all candidate records, from a fresh session
on the committed store, with the two counters starting at zero. -/
def persistLoop (pops : List (List Char × Option PopRec))
    (data : List MuseumRecord) (st : Store) : Sess × Nat × Nat :=
  data.foldl (processRecord pops st) (initSess st, 0, 0)

/-- Whether the closing db.commit() raises: a poisoned session raises
PendingRollbackError, and the final flush of the pending stat rows raises
IntegrityError when they collide on the unique (museum_id, year) key. -/
def commitFails (sess : Sess) : Bool :=
  sess.poisoned || statConflict sess.cur.stats sess.pending

/-- The committed store of a successful commit: the flushed rows plus the
remaining pending stat rows. -/
def commitStore (sess : Sess) : Store :=
  { sess.cur with stats := sess.cur.stats ++ sess.pending }

/-- Whether a run of the persisting loop hits no database error: no
IntegrityError at any flush (failed), hence no poisoned session, and a
clean final commit. -/
@[reducible] def runClean (pops : List (List Char × Option PopRec))
    (data : List MuseumRecord) (st : Store) : Prop :=
  (persistLoop pops data st).1.failed = false ∧
  (persistLoop pops data st).1.poisoned = false ∧
  statConflict (persistLoop pops data st).1.cur.stats
    (persistLoop pops data st).1.pending = false

/-- A value of the run-summary dict: a string or an integer. -/
inductive SummVal where
  | str (s : String)
  | nat (n : Nat)
deriving DecidableEq, Repr

/-- Model of _run_async_etl (lines 32-80): with no fetched data, the
fixed error summary over an untouched store; otherwise the persisting
loop runs and db.commit() closes it — a failing commit raises out of the
function (the session closes without committing anything), a successful
one persists the pending stat rows, and the ok summary carries the two
counters.  The summary dicts are modelled as key-value lists in the
literal key order of the source. -/
def run_async_etl (fetched : List MuseumRecord)
    (pops : List (List Char × Option PopRec)) (st : Store) :
    Except String (Store × List (String × SummVal)) :=
  if fetched.isEmpty then
    .ok (st, [("status", .str "error"), ("museums", .nat 0), ("cities", .nat 0),
      ("error", .str "No museum data available from Wikidata")])
  else
    if commitFails (persistLoop pops fetched st).1 then
      .error "IntegrityError: duplicate key value violates unique constraint"
    else
      .ok (commitStore (persistLoop pops fetched st).1,
        [("status", .str "ok"),
          ("museums", .nat (persistLoop pops fetched st).2.1),
          ("cities", .nat (persistLoop pops fetched st).2.2)])

/-- Model of fetch_most_visited_museums (src/clients/wikipedia.py, lines
10-27): the outcome of fetching and parsing the page is either a raised
exception or a candidate list; the handler converts any exception into an
empty list. -/
def fetch_most_visited_museums (page : Except String (List MuseumRecord)) :
    List MuseumRecord :=
  match page with
  | .error _ => []
  | .ok l => l

/-- Model of run_etl (src/etl/pipeline.py, lines 13-29): schema creation
is idempotent and invisible in the store model; an exception raised by
the async body — reachable through a failing commit — is caught and
converted into the error dict with zeroed counts, over the unchanged
committed store. -/
def run_etl (fetched : List MuseumRecord)
    (pops : List (List Char × Option PopRec)) (st : Store) :
    Store × List (String × SummVal) :=
  match run_async_etl fetched pops st with
  | .ok r => r
  | .error e =>
    (st, [("status", .str "error"), ("error", .str e),
      ("museums", .nat 0), ("cities", .nat 0)])

/-!
Model of the HTTP layer (src/api/main.py) for the trigger and features
endpoints.  Responses are modelled as a status code paired with an
optional body; HTTPException(500) carries no modelled body.
-/

/-- The positional-parameter count of run_etl in src/etl/pipeline.py: the
definition is def run_etl() with an empty parameter list. -/
def runEtlParamCount : Nat := 0

/-- Model of a Python call of run_etl with a list of positional arguments:
passing more positional arguments than the callee has parameters raises
TypeError before the body runs; otherwise the call returns the result of
run_etl. -/
def callRunEtl (args : List (Option Int)) (fetched : List MuseumRecord)
    (pops : List (List Char × Option PopRec)) (st : Store) :
    Except String (Store × List (String × SummVal)) :=
  if args.length ≤ runEtlParamCount then .ok (run_etl fetched pops st)
  else .error "TypeError: run_etl() takes 0 positional arguments but 1 was given"

/-- The required fields of the pydantic model ETLResponse in
src/api/main.py: status, year, museums and cities have no defaults; error
defaults to None. -/
def etlResponseRequired : List String := ["status", "year", "museums", "cities"]

/-- Model of constructing ETLResponse(**result): pydantic validation
fails when a required field is missing from the keyword dict. -/
def validateEtlResponse (d : List (String × SummVal)) : Except String Unit :=
  if etlResponseRequired.all (fun k => (d.find? (fun kv => kv.1 == k)).isSome) then
    .ok ()
  else .error "ValidationError: field required"

/-- Model of trigger_etl (src/api/main.py, lines 42-49): the body calls
run_etl with the one positional argument year and builds an ETLResponse
from the resulting dict, all inside a try whose handler raises
HTTPException with status 500. -/
def trigger_etl (year : Option Int) (fetched : List MuseumRecord)
    (pops : List (List Char × Option PopRec)) (st : Store) :
    Nat × Option (List (String × SummVal)) :=
  match callRunEtl [year] fetched pops st with
  | .error _ => (500, none)
  | .ok r =>
    match validateEtlResponse r.2 with
    | .error _ => (500, none)
    | .ok _ => (200, some r.2)

/-!
Model of the feature join (src/ml/features.py) and the features endpoint.
-/

/-- A row of the feature frame: the six selected and labelled columns of
the Museum-City-MuseumStat join. -/
structure FeatRow where
  museumId : Nat
  museumName : List Char
  cityId : Nat
  cityName : List Char
  visitors : Nat
  population : Nat
deriving DecidableEq, Repr

/-- The rows of the inner join of museums with cities on the city
reference and with stats on the museum reference; a museum whose city
reference is null joins nothing since null equals no id. -/
def joinRows (st : Store) : List FeatRow :=
  st.museums.flatMap (fun m =>
    st.cities.flatMap (fun c =>
      if m.cityId == some c.id then
        st.stats.filterMap (fun s =>
          if s.museumId == m.id then
            some ⟨m.id, m.name, c.id, c.name, s.visitors, c.population⟩
          else none)
      else []))

/-- A pandas DataFrame as load_features builds it: column labels plus
rows. -/
structure DFrame where
  cols : List String
  rows : List FeatRow
deriving DecidableEq, Repr

/-- The six column labels of the feature frame, fixed both in the empty
case (the explicit columns argument) and in the non-empty case (the keys
of the row dicts, in insertion order). -/
def featureColumns : List String :=
  ["museum_id", "museum_name", "city_id", "city_name", "visitors", "population"]

/-- Model of load_features (src/ml/features.py, lines 8-56): one value, a
DataFrame.  The numeric coercion passes are the identity on the integer
values the store holds. -/
def load_features (st : Store) : DFrame := ⟨featureColumns, joinRows st⟩

/-- Iterating a pandas DataFrame yields its column labels; this is what
tuple unpacking of a DataFrame consumes. -/
def dframeIter (df : DFrame) : List String := df.cols

/-- Model of Python tuple unpacking into two targets: any iterable of a
length other than two raises ValueError. -/
def unpackTwo (l : List String) : Except String (String × String) :=
  match l with
  | [a, b] => .ok (a, b)
  | _ => .error "ValueError: too many values to unpack"

/-- Model of the body of get_features (src/api/main.py, lines 52-67): the
statement df, columns = load_features() unpacks the lone DataFrame that
load_features returns.  Were the unpack ever to succeed, df would be bound
to a column-label string and the subsequent df.empty access would raise
AttributeError, so every path through the body raises. -/
def getFeaturesBody (st : Store) : Except String Unit :=
  match unpackTwo (dframeIter (load_features st)) with
  | .error e => .error e
  | .ok _ => .error "AttributeError: str has no attribute empty"

/-- Model of get_features: the try/except turns any exception from the
body into HTTPException with status 500. -/
def get_features (st : Store) : Nat × Option Unit :=
  match getFeaturesBody st with
  | .error _ => (500, none)
  | .ok u => (200, some u)

/-!
Concrete data used by witnesses and counterexamples.
-/

/-- A candidate record as extracted from the Louvre row of the page. -/
def louvreRec : MuseumRecord :=
  ⟨"Louvre".data, "Paris".data, "France".data, 8700000, 2024, "wikipedia_api".data⟩

/-- A second candidate record in the same city as louvreRec. -/
def orsayRec : MuseumRecord :=
  ⟨"Orsay".data, "Paris".data, "France".data, 3270000, 2024, "wikipedia_api".data⟩

/-- A well-formed four-cell table row. -/
def demoCells : List (List Char) :=
  ["Louvre".data, "8,700,000 (2024)".data, "Paris".data, "France".data]

/-- The record that demoCells extracts to. -/
def demoRec : MuseumRecord :=
  ⟨"Louvre".data, "Paris".data, "France".data, 8700000, 2024, "wikipedia_api".data⟩

/-- Number of stat rows of a stats table that belong to a given museum
id. -/
def countStatsFor (l : List StatRow) (mid : Nat) : Nat :=
  (l.filter (fun s => s.museumId == mid)).length

/-- A committed store fully establishes a candidate record when the
city query hits some row, the museum query under that row hits some row,
and that museum already has at least one stat row. -/
def fullyEstablished (st : Store) (md : MuseumRecord) : Prop :=
  ∃ c, st.cities.find? (cityMatches md) = some c ∧
    ∃ m, st.museums.find? (museumMatches md.name (some c.id)) = some m ∧
      1 ≤ countStatsFor st.stats m.id

/-- The session-level counterpart: the queries run on the flushed view,
and the stat row may still be pending (the combined view is what a
successful commit writes). -/
def estS (sess : Sess) (md : MuseumRecord) : Prop :=
  ∃ c, sess.cur.cities.find? (cityMatches md) = some c ∧
    ∃ m, sess.cur.museums.find? (museumMatches md.name (some c.id)) = some m ∧
      1 ≤ countStatsFor (sess.cur.stats ++ sess.pending) m.id

/-- A store holding one city, one museum and one stat row, used by
witnesses. -/
def statStore : Store :=
  ⟨[⟨1, "Paris".data, "France".data, 11000000, 2023, none⟩],
   [⟨1, "Louvre".data, some 1⟩], [⟨1, 2023, 8700000⟩], 2, 2⟩

/-- The museum row of statStore. -/
def louvreRow : MuseumRow := ⟨1, "Louvre".data, some 1⟩

/-- A 2023 observation of the Louvre. -/
def louvre2023 : MuseumRecord :=
  ⟨"Louvre".data, "Paris".data, "France".data, 8700000, 2023, "wikipedia_api".data⟩

/-- A 2024 observation of the Louvre: same museum, different year. -/
def louvre2024 : MuseumRecord :=
  ⟨"Louvre".data, "Paris".data, "France".data, 8900000, 2024, "wikipedia_api".data⟩

/-- A second 2023 observation of the Louvre with a different count. -/
def louvreDup : MuseumRecord :=
  ⟨"Louvre".data, "Paris".data, "France".data, 1, 2023, "wikipedia_api".data⟩

/-- A 2023 observation of a second museum in the same city. -/
def orsay2023 : MuseumRecord :=
  ⟨"Orsay".data, "Paris".data, "France".data, 3270000, 2023, "wikipedia_api".data⟩

/-- A third 2023 observation of the Louvre. -/
def louvreAgain : MuseumRecord :=
  ⟨"Louvre".data, "Paris".data, "France".data, 5000000, 2023, "wikipedia_api".data⟩

/-- The batch refuting run-to-run idempotence: the two duplicate Louvre
2023 observations leave colliding pending stat rows, the Orsay museum
flush then fails and rolls the whole transaction back, and the final
Louvre record rebuilds city and museum, so the first run commits without
the Orsay museum while a second run, finding a stat for the Louvre and
holding no pending rows, creates it. -/
def cxBatch : List MuseumRecord := [louvre2023, louvreDup, orsay2023, louvreAgain]

/-- A session over emptyStore holding one pending stat row for museum 1,
used to witness that the duplicate check does not see pending rows. -/
def pendSess : Sess := ⟨emptyStore, [⟨1, 2023, 5000000⟩], false, false⟩

/-!
Supporting lemmas about the strip and filter passes.
-/

/-- Dropping from an already-dropped list drops nothing further. -/
theorem dropWhile_twice {α : Type _} (p : α → Bool) (l : List α) :
    List.dropWhile p (List.dropWhile p l) = List.dropWhile p l := by
  induction l with
  | nil => simp
  | cons c t ih =>
    cases hp : p c with
    | true => simp [List.dropWhile_cons, hp, ih]
    | false => simp [List.dropWhile_cons, hp]

/-- Left strip is idempotent. -/
theorem lstrip_idem (s : List Char) : lstrip (lstrip s) = lstrip s :=
  dropWhile_twice pyWs s

/-- Right strip is idempotent. -/
theorem rstrip_idem (s : List Char) : rstrip (rstrip s) = rstrip s := by
  unfold rstrip
  rw [List.reverse_reverse, dropWhile_twice]

/-- Right strip returns a prefix of its input. -/
theorem rstrip_initial (s : List Char) : rstrip s <+: s := by
  obtain ⟨t, ht⟩ := List.dropWhile_suffix (l := s.reverse) pyWs
  refine ⟨t.reverse, ?_⟩
  rw [rstrip, ← List.reverse_append, ht, List.reverse_reverse]

/-- A prefix of a list that left strip leaves unchanged is itself left
stripped. -/
theorem lstrip_eq_self_of_initial (z r : List Char) (hz : lstrip z = z)
    (hp : r <+: z) : lstrip r = r := by
  cases r with
  | nil => rfl
  | cons c t =>
    obtain ⟨u, hu⟩ := hp
    have hc : pyWs c = false := by
      cases hpc : pyWs c with
      | false => rfl
      | true =>
        exfalso
        have hz2 : lstrip z = List.dropWhile pyWs (t ++ u) := by
          rw [← hu]
          show List.dropWhile pyWs (c :: (t ++ u)) = _
          rw [List.dropWhile_cons_of_pos (by simp [hpc])]
        have hlen := (List.dropWhile_sublist (l := t ++ u) (p := pyWs)).length_le
        rw [hz] at hz2
        have hlen2 := congrArg List.length hz2
        rw [← hu] at hlen2
        simp [List.length_append] at hlen2 hlen
        omega
    show List.dropWhile pyWs (c :: t) = c :: t
    rw [List.dropWhile_cons_of_neg (by simp [hc])]

/-- Python strip is idempotent. -/
theorem stripL_idem (s : List Char) : stripL (stripL s) = stripL s := by
  unfold stripL
  rw [lstrip_eq_self_of_initial (lstrip s) (rstrip (lstrip s)) (lstrip_idem s)
    (rstrip_initial (lstrip s)), rstrip_idem]

/-- Stripping only removes characters: the result is a sublist. -/
theorem stripL_sublist (s : List Char) : List.Sublist (stripL s) s :=
  ((rstrip_initial (lstrip s)).sublist).trans (List.dropWhile_sublist pyWs)

/-- No double quote survives clean_html: the quote pass removes them all
and the final strip removes nothing new. -/
theorem no_quote_clean_html (s : List Char) : '"' ∉ clean_html s := by
  unfold clean_html
  split
  · simp
  · intro hmem
    have h1 : '"' ∈ removeQuotes (removeMd (removeRefs s)) :=
      List.Sublist.mem hmem (stripL_sublist _)
    have h2 := (List.mem_filter.mp h1).2
    simp at h2

/-- The quote pass is the identity on quote-free text. -/
theorem removeQuotes_eq_self {t : List Char} (h : '"' ∉ t) :
    removeQuotes t = t := by
  unfold removeQuotes
  rw [List.filter_eq_self]
  intro a ha
  by_cases hc : a = '"'
  · exact absurd (hc ▸ ha) h
  · simp [hc]

/-- The output of clean_html is already stripped. -/
theorem stripL_clean_html (s : List Char) : stripL (clean_html s) = clean_html s := by
  unfold clean_html
  split
  · rfl
  · exact stripL_idem _

/-- C3 (counterexample).  clean_html is not idempotent: on the input
[[1]2] the footnote-marker pass removes the inner marker [1] and thereby
exposes a new marker [2], which only a second application removes;
clean_html of [[1]2] is [2] while clean_html of [2] is empty. -/
theorem clean_html_not_idempotent :
    clean_html (clean_html "[[1]2]".data) ≠ clean_html "[[1]2]".data := by decide

/-- C3 (amended).  On markup-free input, clean_html is idempotent
whenever its first pass leaves no removable footnote marker and no
removable markdown-image construct: under those two fixed-point
hypotheses the second application changes nothing, because the quote pass
is the identity on the quote-free first output and strip is idempotent. -/
theorem clean_html_idempotent_of_no_new_markers (s : List Char)
    (hlt : '<' ∉ s) (hamp : '&' ∉ s)
    (href : removeRefs (clean_html s) = clean_html s)
    (hmd : removeMd (clean_html s) = clean_html s) :
    clean_html (clean_html s) = clean_html s := by
  by_cases h0 : clean_html s = []
  · rw [h0]; rfl
  · conv_lhs => rw [clean_html]
    rw [if_neg (by simpa using h0), href, hmd,
      removeQuotes_eq_self (no_quote_clean_html s), stripL_clean_html]

/-- C3 (witness).  The amended idempotence theorem applied to a concrete
markup-free input whose single clean_html pass is a fixed point of the two
marker-removal passes. -/
theorem clean_html_idempotent_witness :
    clean_html (clean_html "  Louvre [1]  ".data) = clean_html "  Louvre [1]  ".data :=
  clean_html_idempotent_of_no_new_markers "  Louvre [1]  ".data
    (by decide) (by decide) (by decide) (by decide)

/-- C1.  The visitor-count parser on the six specified inputs, plus a
bare decimal showing that an absent unit word falls back to the raw value
truncated (not rounded) to an integer; 2.5 trillion shows the same for an
unknown unit word. -/
theorem extract_visitor_count_cases :
    extract_visitor_count "2.5 million".data = 2500000 ∧
    extract_visitor_count "1,000 million".data = 1000000000 ∧
    extract_visitor_count "8,700,000 (2019)".data = 8700000 ∧
    extract_visitor_count "".data = 0 ∧
    extract_visitor_count "abc".data = 0 ∧
    extract_visitor_count "2.5 trillion".data = 2 ∧
    extract_visitor_count "2.5".data = 2 := by decide

/-- C2.  Row extraction returns nothing exactly when there are fewer than
four cells, or the parsed visitor count is below the floor of 2000000, or
the normalised name, city or country is empty; and any returned record is
complete, carrying the normalised fields, the parsed count (at least the
floor), the embedded year and the provenance tag. -/
theorem extract_museum_from_cells_spec (cells : List (List Char)) :
    (extract_museum_from_cells cells = none ↔
      cells.length < 4 ∨
      extract_visitor_count (clean_html (cells.getD 1 [])) < 2000000 ∨
      clean_html (cells.getD 0 []) = [] ∨
      stripL (clean_html (cells.getD 2 [])) = [] ∨
      stripL (clean_html (cells.getD 3 [])) = []) ∧
    (∀ r, extract_museum_from_cells cells = some r →
      r.name = clean_html (cells.getD 0 []) ∧
      r.city = stripL (clean_html (cells.getD 2 [])) ∧
      r.country = stripL (clean_html (cells.getD 3 [])) ∧
      r.visitors = extract_visitor_count (clean_html (cells.getD 1 [])) ∧
      2000000 ≤ r.visitors ∧
      r.year = findYear (clean_html (cells.getD 1 [])) ∧
      r.source = "wikipedia_api".data) := by
  by_cases h1 : cells.length < 4
  · have hv : extract_museum_from_cells cells = none := by
      unfold extract_museum_from_cells; rw [if_pos h1]
    exact ⟨by rw [hv]; exact ⟨fun _ => Or.inl h1, fun _ => rfl⟩,
      fun r hr => by rw [hv] at hr; cases hr⟩
  · by_cases h2 : extract_visitor_count (clean_html (cells.getD 1 [])) < 2000000
    · have hv : extract_museum_from_cells cells = none := by
        unfold extract_museum_from_cells; rw [if_neg h1, if_pos h2]
      exact ⟨by rw [hv]; exact ⟨fun _ => Or.inr (Or.inl h2), fun _ => rfl⟩,
        fun r hr => by rw [hv] at hr; cases hr⟩
    · by_cases h3 : clean_html (cells.getD 0 []) = [] ∨
        stripL (clean_html (cells.getD 2 [])) = [] ∨
        stripL (clean_html (cells.getD 3 [])) = []
      · have hv : extract_museum_from_cells cells = none := by
          unfold extract_museum_from_cells; rw [if_neg h1, if_neg h2, if_pos h3]
        have hor : cells.length < 4 ∨
            extract_visitor_count (clean_html (cells.getD 1 [])) < 2000000 ∨
            clean_html (cells.getD 0 []) = [] ∨
            stripL (clean_html (cells.getD 2 [])) = [] ∨
            stripL (clean_html (cells.getD 3 [])) = [] := by
          rcases h3 with h | h | h
          · exact Or.inr (Or.inr (Or.inl h))
          · exact Or.inr (Or.inr (Or.inr (Or.inl h)))
          · exact Or.inr (Or.inr (Or.inr (Or.inr h)))
        exact ⟨by rw [hv]; exact ⟨fun _ => hor, fun _ => rfl⟩,
          fun r hr => by rw [hv] at hr; cases hr⟩
      · have hv : extract_museum_from_cells cells =
            some ⟨clean_html (cells.getD 0 []),
              stripL (clean_html (cells.getD 2 [])),
              stripL (clean_html (cells.getD 3 [])),
              extract_visitor_count (clean_html (cells.getD 1 [])),
              findYear (clean_html (cells.getD 1 [])),
              "wikipedia_api".data⟩ := by
          unfold extract_museum_from_cells; rw [if_neg h1, if_neg h2, if_neg h3]
        push_neg at h3
        refine ⟨?_, fun r hr => ?_⟩
        · rw [hv]
          constructor
          · intro h; cases h
          · intro hor
            rcases hor with h | h | h | h | h
            · exact absurd h h1
            · exact absurd h h2
            · exact absurd h h3.1
            · exact absurd h h3.2.1
            · exact absurd h h3.2.2
        · rw [hv] at hr
          injection hr with h
          subst h
          exact ⟨rfl, rfl, rfl, rfl, Nat.le_of_not_lt h2, rfl, rfl⟩

/-- C2 (witness).  The extraction theorem applied to a concrete
well-formed four-cell row. -/
theorem extract_museum_from_cells_witness :
    demoRec.name = clean_html (demoCells.getD 0 []) ∧
    demoRec.city = stripL (clean_html (demoCells.getD 2 [])) ∧
    demoRec.country = stripL (clean_html (demoCells.getD 3 [])) ∧
    demoRec.visitors = extract_visitor_count (clean_html (demoCells.getD 1 [])) ∧
    2000000 ≤ demoRec.visitors ∧
    demoRec.year = findYear (clean_html (demoCells.getD 1 [])) ∧
    demoRec.source = "wikipedia_api".data :=
  (extract_museum_from_cells_spec demoCells).2 demoRec (by decide)

/-- C7 (code evaluation).  trigger_etl answers 500 with no body on every
request: the body calls run_etl with one positional argument though
run_etl takes none, so the call raises TypeError, the handler converts it
to HTTPException 500 — and even a zero-argument call would fail
ETLResponse validation, whose required year field the run summary never
contains. -/
theorem trigger_etl_always_500 :
    ∀ (y : Option Int) (fetched : List MuseumRecord)
      (pops : List (List Char × Option PopRec)) (st : Store),
      (trigger_etl y fetched pops st).1 = 500 ∧
      (trigger_etl y fetched pops st).2 = none :=
  fun _ _ _ _ => ⟨rfl, rfl⟩

/-- C8 (code evaluation).  get_features answers 500 on every store — in
particular the empty one: load_features returns a single DataFrame whose
iteration yields its six column labels, so the two-target unpack in the
endpoint raises ValueError and the handler answers 500; the fixed column
list has six names, not seven, and the empty-store frame has no rows. -/
theorem get_features_always_500 :
    (∀ st : Store, (get_features st).1 = 500 ∧ (get_features st).2 = none) ∧
    (load_features emptyStore).cols = featureColumns ∧
    featureColumns.length = 6 ∧
    (load_features emptyStore).rows = [] :=
  ⟨fun _ => ⟨rfl, rfl⟩, rfl, rfl, rfl⟩

/-!
Supporting lemmas about the session operations.
-/

/-- A find? hit is stable under appending rows. -/
theorem find?_append_some {α : Type _} (p : α → Bool) {l₁ : List α} {a : α}
    (h : l₁.find? p = some a) (l₂ : List α) : (l₁ ++ l₂).find? p = some a := by
  rw [List.find?_append, h]; rfl

/-- A find? miss defers to the appended rows. -/
theorem find?_append_none {α : Type _} (p : α → Bool) {l₁ : List α}
    (h : l₁.find? p = none) (l₂ : List α) : (l₁ ++ l₂).find? p = l₂.find? p := by
  rw [List.find?_append, h]; rfl

/-- Stat counts add over appended tables. -/
theorem countStatsFor_append (l₁ l₂ : List StatRow) (mid : Nat) :
    countStatsFor (l₁ ++ l₂) mid = countStatsFor l₁ mid + countStatsFor l₂ mid := by
  unfold countStatsFor
  rw [List.filter_append, List.length_append]

/-- Stat count of a single row. -/
theorem countStatsFor_singleton (e : StatRow) (mid : Nat) :
    countStatsFor [e] mid = if e.museumId = mid then 1 else 0 := by
  by_cases h : e.museumId = mid
  · simp [countStatsFor, h]
  · simp [countStatsFor, h]

/-- A positive stat count makes the museum-id query hit. -/
theorem countStatsFor_isSome {l : List StatRow} {mid : Nat}
    (h : 1 ≤ countStatsFor l mid) :
    (l.find? (fun s => s.museumId == mid)).isSome := by
  apply List.find?_isSome.mpr
  unfold countStatsFor at h
  rcases hf : l.filter (fun s => s.museumId == mid) with _ | ⟨x, xs⟩
  · rw [hf] at h
    simp at h
  · have hx : x ∈ l.filter (fun s => s.museumId == mid) := by
      rw [hf]
      exact List.mem_cons_self _ _
    exact ⟨x, (List.mem_filter.mp hx).1, (List.mem_filter.mp hx).2⟩

/-- A zero stat count makes the museum-id query miss. -/
theorem countStatsFor_none {l : List StatRow} {mid : Nat}
    (h : countStatsFor l mid = 0) :
    l.find? (fun s => s.museumId == mid) = none := by
  rw [List.find?_eq_none]
  unfold countStatsFor at h
  rw [List.length_eq_zero, List.filter_eq_nil_iff] at h
  exact h

/-- Flushing no rows never violates the constraint. -/
theorem statConflict_nil (stats : List StatRow) : statConflict stats [] = false := rfl

/-- Committing a fresh session returns the store unchanged. -/
theorem commitStore_initSess (st : Store) : commitStore (initSess st) = st := by
  unfold commitStore initSess
  rw [List.append_nil]

/-- Branch lemma: a poisoned session makes the city phase raise. -/
theorem gocc_skip {sess : Sess} (pops : List (List Char × Option PopRec))
    (md : MuseumRecord) (h : sess.poisoned = true) :
    get_or_create_city pops sess md = (sess, none) := by
  unfold get_or_create_city
  rw [if_pos h]

/-- Branch lemma: the city phase on a hit returns the found row. -/
theorem gocc_found {sess : Sess} {md : MuseumRecord} {c : CityRow}
    (pops : List (List Char × Option PopRec)) (h1 : sess.poisoned = false)
    (h2 : sess.cur.cities.find? (cityMatches md) = some c) :
    get_or_create_city pops sess md = (sess, some c) := by
  unfold get_or_create_city
  rw [if_neg (by simp [h1]), h2]

/-- Branch lemma: a conflicting flush in the city phase poisons the
session and skips the record. -/
theorem gocc_conflict {sess : Sess} {md : MuseumRecord}
    (pops : List (List Char × Option PopRec)) (h1 : sess.poisoned = false)
    (h2 : sess.cur.cities.find? (cityMatches md) = none)
    (h3 : statConflict sess.cur.stats sess.pending = true) :
    get_or_create_city pops sess md =
      ({ sess with poisoned := true, failed := true }, none) := by
  unfold get_or_create_city
  rw [if_neg (by simp [h1]), h2, if_pos h3]

/-- Branch lemma: a clean flush in the city phase appends the new row and
writes the pending stat rows. -/
theorem gocc_created {sess : Sess} {md : MuseumRecord}
    (pops : List (List Char × Option PopRec)) (h1 : sess.poisoned = false)
    (h2 : sess.cur.cities.find? (cityMatches md) = none)
    (h3 : statConflict sess.cur.stats sess.pending = false) :
    get_or_create_city pops sess md =
      ({ sess with
          cur := { sess.cur with
            cities := sess.cur.cities ++ [newCityRow sess.cur md pops]
            stats := sess.cur.stats ++ sess.pending
            nextCityId := sess.cur.nextCityId + 1 }
          pending := [] },
        some (newCityRow sess.cur md pops)) := by
  unfold get_or_create_city
  rw [if_neg (by simp [h1]), h2, if_neg (by simp [h3])]

/-- Branch lemma: the museum phase on a hit returns the found row. -/
theorem cm_found {sess : Sess} {md : MuseumRecord} {c : CityRow} {m : MuseumRow}
    (base : Store)
    (h : sess.cur.museums.find? (museumMatches md.name (some c.id)) = some m) :
    create_museum base sess md c = (sess, some m) := by
  unfold create_museum
  rw [h]

/-- Branch lemma: a conflicting flush in the museum phase rolls the
transaction back to the committed base store and returns None. -/
theorem cm_rollback {sess : Sess} {md : MuseumRecord} {c : CityRow}
    (base : Store)
    (h2 : sess.cur.museums.find? (museumMatches md.name (some c.id)) = none)
    (h3 : statConflict sess.cur.stats sess.pending = true) :
    create_museum base sess md c =
      (⟨{ base with
          nextCityId := sess.cur.nextCityId
          nextMuseumId := sess.cur.nextMuseumId + 1 },
        [], false, true⟩, none) := by
  unfold create_museum
  rw [h2, if_pos h3]

/-- Branch lemma: a clean flush in the museum phase appends the new row
and writes the pending stat rows. -/
theorem cm_created {sess : Sess} {md : MuseumRecord} {c : CityRow}
    (base : Store)
    (h2 : sess.cur.museums.find? (museumMatches md.name (some c.id)) = none)
    (h3 : statConflict sess.cur.stats sess.pending = false) :
    create_museum base sess md c =
      ({ sess with
          cur := { sess.cur with
            museums := sess.cur.museums ++ [newMuseumRow sess.cur md c]
            stats := sess.cur.stats ++ sess.pending
            nextMuseumId := sess.cur.nextMuseumId + 1 }
          pending := [] },
        some (newMuseumRow sess.cur md c)) := by
  unfold create_museum
  rw [h2, if_neg (by simp [h3])]

/-- Branch lemma: a visible stat row makes the stat phase skip. -/
theorem cms_skip {sess : Sess} {m : MuseumRow} (md : MuseumRecord)
    (h : (sess.cur.stats.find? (fun s => s.museumId == m.id)).isSome) :
    create_museum_stats sess m md = sess := by
  unfold create_museum_stats
  rw [if_pos h]

/-- Branch lemma: with no visible stat row the stat phase adds a pending
row, whatever the pending rows already hold. -/
theorem cms_add {sess : Sess} {m : MuseumRow} (md : MuseumRecord)
    (h : sess.cur.stats.find? (fun s => s.museumId == m.id) = none) :
    create_museum_stats sess m md =
      { sess with pending := sess.pending ++ [⟨m.id, md.year, md.visitors⟩] } := by
  unfold create_museum_stats
  rw [if_neg (by simp [h])]

/-- The new city row satisfies the city query filter of its record. -/
theorem newCityRow_matches (st : Store) (md : MuseumRecord)
    (pops : List (List Char × Option PopRec)) :
    cityMatches md (newCityRow st md pops) = true := by
  simp [cityMatches, newCityRow]

/-- The new museum row satisfies the museum query filter of its record
and city. -/
theorem newMuseumRow_matches (st : Store) (md : MuseumRecord) (c : CityRow) :
    museumMatches md.name (some c.id) (newMuseumRow st md c) = true := by
  simp [museumMatches, newMuseumRow]

/-- Establishment survives a session step that only appends to the two
tables and to the combined stat view. -/
theorem estS_of_extend {s s2 : Sess} {md : MuseumRecord}
    (hc : ∃ ec, s2.cur.cities = s.cur.cities ++ ec)
    (hm : ∃ em, s2.cur.museums = s.cur.museums ++ em)
    (hx : ∃ ex, s2.cur.stats ++ s2.pending = (s.cur.stats ++ s.pending) ++ ex)
    (h : estS s md) : estS s2 md := by
  obtain ⟨ec, hec⟩ := hc
  obtain ⟨em, hem⟩ := hm
  obtain ⟨ex, hex⟩ := hx
  obtain ⟨c, hcf, m, hmf, hcnt⟩ := h
  refine ⟨c, ?_, m, ?_, ?_⟩
  · rw [hec]; exact find?_append_some _ hcf _
  · rw [hem]; exact find?_append_some _ hmf _
  · rw [hex, countStatsFor_append]; omega

/-- A hit of the museum-id query gives a positive stat count. -/
theorem countStatsFor_pos {l : List StatRow} {mid : Nat}
    (h : (l.find? (fun s => s.museumId == mid)).isSome) :
    1 ≤ countStatsFor l mid := by
  obtain ⟨x, hx⟩ := Option.isSome_iff_exists.mp h
  have hpx := List.find?_some hx
  have hmx := List.mem_of_find?_eq_some hx
  unfold countStatsFor
  have hm2 : x ∈ l.filter (fun s => s.museumId == mid) :=
    List.mem_filter.mpr ⟨hmx, hpx⟩
  have := List.length_pos.mpr (List.ne_nil_of_mem hm2)
  omega

/-- The stat phase never clears the failed flag. -/
theorem recordTail_failed_mono (base : Store) (md : MuseumRecord) (c : CityRow)
    (sess : Sess) (h : sess.failed = true) :
    (recordTail base md c sess).1.failed = true := by
  cases hm : sess.cur.museums.find? (museumMatches md.name (some c.id)) with
  | some m =>
    have ht : recordTail base md c sess = (create_museum_stats sess m md, true) := by
      unfold recordTail
      rw [cm_found base hm]
    rw [ht]
    show (create_museum_stats sess m md).failed = true
    unfold create_museum_stats
    split <;> exact h
  | none =>
    by_cases hcf : statConflict sess.cur.stats sess.pending
    · have ht := cm_rollback base hm hcf
      unfold recordTail
      rw [ht]
    · have ht := cm_created base hm (by simpa using hcf)
      unfold recordTail
      rw [ht]
      show (create_museum_stats _ (newMuseumRow sess.cur md c) md).failed = true
      unfold create_museum_stats
      split <;> exact h

/-- On a poisoned session the whole record is skipped. -/
theorem processRecord_skip (pops : List (List Char × Option PopRec))
    (base : Store) {acc : Sess × Nat × Nat} (md : MuseumRecord)
    (h : acc.1.poisoned = true) :
    processRecord pops base acc md = (acc.1, acc.2.1, acc.2.2) := by
  unfold processRecord
  rw [gocc_skip pops md h]

/-- Reduction of one loop iteration when the city phase returns None. -/
theorem processRecord_nocity (pops : List (List Char × Option PopRec))
    (base : Store) {acc : Sess × Nat × Nat} {md : MuseumRecord} {s1 : Sess}
    (hg : get_or_create_city pops acc.1 md = (s1, none)) :
    processRecord pops base acc md = (s1, acc.2.1, acc.2.2) := by
  unfold processRecord
  rw [hg]

/-- Reduction of one loop iteration when the city phase returns a city. -/
theorem processRecord_city (pops : List (List Char × Option PopRec))
    (base : Store) {acc : Sess × Nat × Nat} {md : MuseumRecord} {s1 : Sess}
    {c : CityRow} (hg : get_or_create_city pops acc.1 md = (s1, some c))
    {s2 : Sess} {fl : Bool} (hrt : recordTail base md c s1 = (s2, fl)) :
    processRecord pops base acc md =
      (s2, cond fl (acc.2.1 + 1) acc.2.1, acc.2.2 + 1) := by
  unfold processRecord
  rw [hg]
  show (match recordTail base md c s1 with
    | (sess2, false) => (sess2, acc.2.1, acc.2.2 + 1)
    | (sess2, true) => (sess2, acc.2.1 + 1, acc.2.2 + 1)) = _
  rw [hrt]
  cases fl <;> rfl

/-- One loop iteration never clears the failed flag. -/
theorem processRecord_failed_mono (pops : List (List Char × Option PopRec))
    (base : Store) (acc : Sess × Nat × Nat) (md : MuseumRecord)
    (h : acc.1.failed = true) :
    (processRecord pops base acc md).1.failed = true := by
  by_cases hp : acc.1.poisoned
  · rw [processRecord_skip pops base md (by simpa using hp)]
    exact h
  · cases hfind : acc.1.cur.cities.find? (cityMatches md) with
    | some c =>
      have hg := gocc_found pops (by simpa using hp) hfind
      have hmono := recordTail_failed_mono base md c acc.1 h
      rcases hrt : recordTail base md c acc.1 with ⟨s2, fl⟩
      rw [hrt] at hmono
      rw [processRecord_city pops base hg hrt]
      exact hmono
    | none =>
      by_cases hcf : statConflict acc.1.cur.stats acc.1.pending
      · have hg := gocc_conflict pops (by simpa using hp) hfind hcf
        rw [processRecord_nocity pops base hg]
      · have hg := gocc_created pops (by simpa using hp) hfind (by simpa using hcf)
        have hmono := recordTail_failed_mono base md (newCityRow acc.1.cur md pops)
          ({ acc.1 with
              cur := { acc.1.cur with
                cities := acc.1.cur.cities ++ [newCityRow acc.1.cur md pops]
                stats := acc.1.cur.stats ++ acc.1.pending
                nextCityId := acc.1.cur.nextCityId + 1 }
              pending := [] }) h
        rcases hrt : recordTail base md (newCityRow acc.1.cur md pops)
            ({ acc.1 with
                cur := { acc.1.cur with
                  cities := acc.1.cur.cities ++ [newCityRow acc.1.cur md pops]
                  stats := acc.1.cur.stats ++ acc.1.pending
                  nextCityId := acc.1.cur.nextCityId + 1 }
                pending := [] }) with ⟨s2, fl⟩
        rw [hrt] at hmono
        rw [processRecord_city pops base hg hrt]
        exact hmono

/-- Whatever the visible check decides, the stat phase leaves the flushed
view unchanged, only appends to the combined view, keeps the flags, and
leaves at least one combined stat row for its museum. -/
theorem cms_spec (sess : Sess) (m : MuseumRow) (md : MuseumRecord) :
    (create_museum_stats sess m md).cur = sess.cur ∧
    (∃ ex, (create_museum_stats sess m md).cur.stats ++
        (create_museum_stats sess m md).pending =
        (sess.cur.stats ++ sess.pending) ++ ex) ∧
    (create_museum_stats sess m md).poisoned = sess.poisoned ∧
    (create_museum_stats sess m md).failed = sess.failed ∧
    1 ≤ countStatsFor ((create_museum_stats sess m md).cur.stats ++
        (create_museum_stats sess m md).pending) m.id := by
  by_cases hs : (sess.cur.stats.find? (fun s => s.museumId == m.id)).isSome
  · rw [cms_skip md hs]
    refine ⟨rfl, ⟨[], (List.append_nil _).symm⟩, rfl, rfl, ?_⟩
    rw [countStatsFor_append]
    have := countStatsFor_pos hs
    omega
  · rw [cms_add md (Option.not_isSome_iff_eq_none.mp hs)]
    refine ⟨rfl, ⟨[⟨m.id, md.year, md.visitors⟩],
      (List.append_assoc _ _ _).symm⟩, rfl, rfl, ?_⟩
    rw [← List.append_assoc, countStatsFor_append, countStatsFor_singleton,
      if_pos rfl]
    omega

/-- Reduction of the museum-and-stat phase on a rolled-back museum. -/
theorem recordTail_none (base : Store) (md : MuseumRecord) (c : CityRow)
    {sess s2 : Sess} (h : create_museum base sess md c = (s2, none)) :
    recordTail base md c sess = (s2, false) := by
  unfold recordTail
  rw [h]

/-- Reduction of the museum-and-stat phase on a returned museum. -/
theorem recordTail_some (base : Store) (md : MuseumRecord) (c : CityRow)
    {sess s2 : Sess} {m : MuseumRow}
    (h : create_museum base sess md c = (s2, some m)) :
    recordTail base md c sess = (create_museum_stats s2 m md, true) := by
  unfold recordTail
  rw [h]

/-- The tail of a loop iteration whose city phase returned a city: if the
iteration ends unfailed, both counters were incremented, the tables only
grew, the flags survive, and the record is established on the session. -/
theorem recordTail_clean (pops : List (List Char × Option PopRec))
    (base : Store) (acc : Sess × Nat × Nat) (md : MuseumRecord)
    {s1 : Sess} {c : CityRow}
    (hg : get_or_create_city pops acc.1 md = (s1, some c))
    (hfc : s1.cur.cities.find? (cityMatches md) = some c)
    (hext_c : ∃ ec, s1.cur.cities = acc.1.cur.cities ++ ec)
    (hext_m : s1.cur.museums = acc.1.cur.museums)
    (hext_x : s1.cur.stats ++ s1.pending = acc.1.cur.stats ++ acc.1.pending)
    (hpois : s1.poisoned = false) (hfail : s1.failed = acc.1.failed)
    (hclean : (processRecord pops base acc md).1.failed = false) :
    (∃ ec, (processRecord pops base acc md).1.cur.cities =
      acc.1.cur.cities ++ ec) ∧
    (∃ em, (processRecord pops base acc md).1.cur.museums =
      acc.1.cur.museums ++ em) ∧
    (∃ ex, (processRecord pops base acc md).1.cur.stats ++
        (processRecord pops base acc md).1.pending =
        (acc.1.cur.stats ++ acc.1.pending) ++ ex) ∧
    (processRecord pops base acc md).2 = (acc.2.1 + 1, acc.2.2 + 1) ∧
    (processRecord pops base acc md).1.poisoned = false ∧
    (processRecord pops base acc md).1.failed = acc.1.failed ∧
    estS (processRecord pops base acc md).1 md := by
  cases hm : s1.cur.museums.find? (museumMatches md.name (some c.id)) with
  | some m =>
    have hpr : processRecord pops base acc md =
        (create_museum_stats s1 m md, acc.2.1 + 1, acc.2.2 + 1) := by
      rw [processRecord_city pops base hg
        (recordTail_some base md c (cm_found base hm))]
      rfl
    obtain ⟨h1, h2, h3, h4, h5⟩ := cms_spec s1 m md
    rw [hpr]
    refine ⟨?_, ?_, ?_, rfl, ?_, ?_, ?_⟩
    · obtain ⟨ec, hec⟩ := hext_c
      refine ⟨ec, ?_⟩
      show (create_museum_stats s1 m md).cur.cities = acc.1.cur.cities ++ ec
      rw [h1]
      exact hec
    · refine ⟨[], ?_⟩
      show (create_museum_stats s1 m md).cur.museums = acc.1.cur.museums ++ []
      rw [h1, hext_m, List.append_nil]
    · obtain ⟨ex, hx⟩ := h2
      refine ⟨ex, ?_⟩
      show (create_museum_stats s1 m md).cur.stats ++
        (create_museum_stats s1 m md).pending =
        (acc.1.cur.stats ++ acc.1.pending) ++ ex
      rw [hx, hext_x]
    · show (create_museum_stats s1 m md).poisoned = false
      rw [h3]
      exact hpois
    · show (create_museum_stats s1 m md).failed = acc.1.failed
      rw [h4]
      exact hfail
    · refine ⟨c, ?_, m, ?_, h5⟩
      · show (create_museum_stats s1 m md).cur.cities.find? (cityMatches md) =
          some c
        rw [h1]
        exact hfc
      · show (create_museum_stats s1 m md).cur.museums.find?
          (museumMatches md.name (some c.id)) = some m
        rw [h1]
        exact hm
  | none =>
    by_cases hcf : statConflict s1.cur.stats s1.pending
    · have hpr : processRecord pops base acc md =
          (⟨{ base with
              nextCityId := s1.cur.nextCityId
              nextMuseumId := s1.cur.nextMuseumId + 1 },
            [], false, true⟩, acc.2.1, acc.2.2 + 1) := by
        rw [processRecord_city pops base hg
          (recordTail_none base md c (cm_rollback base hm hcf))]
        rfl
      rw [hpr] at hclean
      exact Bool.noConfusion hclean
    · have hc1 : statConflict s1.cur.stats s1.pending = false := by
        simpa using hcf
      have hcm := cm_created base hm hc1
      have hpr : processRecord pops base acc md =
          (create_museum_stats
            ({ s1 with
                cur := { s1.cur with
                  museums := s1.cur.museums ++ [newMuseumRow s1.cur md c]
                  stats := s1.cur.stats ++ s1.pending
                  nextMuseumId := s1.cur.nextMuseumId + 1 }
                pending := [] })
            (newMuseumRow s1.cur md c) md, acc.2.1 + 1, acc.2.2 + 1) := by
        rw [processRecord_city pops base hg (recordTail_some base md c hcm)]
        rfl
      obtain ⟨h1, h2, h3, h4, h5⟩ := cms_spec
        ({ s1 with
            cur := { s1.cur with
              museums := s1.cur.museums ++ [newMuseumRow s1.cur md c]
              stats := s1.cur.stats ++ s1.pending
              nextMuseumId := s1.cur.nextMuseumId + 1 }
            pending := [] })
        (newMuseumRow s1.cur md c) md
      set s2 := create_museum_stats
        ({ s1 with
            cur := { s1.cur with
              museums := s1.cur.museums ++ [newMuseumRow s1.cur md c]
              stats := s1.cur.stats ++ s1.pending
              nextMuseumId := s1.cur.nextMuseumId + 1 }
            pending := [] })
        (newMuseumRow s1.cur md c) md with hs2
      rw [hpr]
      refine ⟨?_, ?_, ?_, rfl, ?_, ?_, ?_⟩
      · obtain ⟨ec, hec⟩ := hext_c
        refine ⟨ec, ?_⟩
        show s2.cur.cities = acc.1.cur.cities ++ ec
        rw [h1]
        exact hec
      · refine ⟨[newMuseumRow s1.cur md c], ?_⟩
        show s2.cur.museums = acc.1.cur.museums ++ [newMuseumRow s1.cur md c]
        rw [h1]
        show s1.cur.museums ++ [newMuseumRow s1.cur md c] =
          acc.1.cur.museums ++ [newMuseumRow s1.cur md c]
        rw [hext_m]
      · obtain ⟨ex, hx⟩ := h2
        refine ⟨ex, ?_⟩
        show s2.cur.stats ++ s2.pending =
          (acc.1.cur.stats ++ acc.1.pending) ++ ex
        rw [hx]
        have hb : (s1.cur.stats ++ s1.pending) ++ ([] : List StatRow) =
            acc.1.cur.stats ++ acc.1.pending := by
          rw [List.append_nil]
          exact hext_x
        show ((s1.cur.stats ++ s1.pending) ++ ([] : List StatRow)) ++ ex =
          (acc.1.cur.stats ++ acc.1.pending) ++ ex
        rw [hb]
      · show s2.poisoned = false
        rw [h3]
        exact hpois
      · show s2.failed = acc.1.failed
        rw [h4]
        exact hfail
      · refine ⟨c, ?_, newMuseumRow s1.cur md c, ?_, h5⟩
        · show s2.cur.cities.find? (cityMatches md) = some c
          rw [h1]
          exact hfc
        · show s2.cur.museums.find? (museumMatches md.name (some c.id)) =
            some (newMuseumRow s1.cur md c)
          rw [h1]
          show (s1.cur.museums ++ [newMuseumRow s1.cur md c]).find?
            (museumMatches md.name (some c.id)) =
            some (newMuseumRow s1.cur md c)
          rw [find?_append_none _ hm]
          exact List.find?_cons_of_pos _ (newMuseumRow_matches s1.cur md c)

/-- One unfailed loop iteration from an unpoisoned session: both counters
were incremented, the tables only grew, the flags survive, and the record
is established on the resulting session. -/
theorem processRecord_clean (pops : List (List Char × Option PopRec))
    (base : Store) (acc : Sess × Nat × Nat) (md : MuseumRecord)
    (hp : acc.1.poisoned = false)
    (hclean : (processRecord pops base acc md).1.failed = false) :
    (∃ ec, (processRecord pops base acc md).1.cur.cities =
      acc.1.cur.cities ++ ec) ∧
    (∃ em, (processRecord pops base acc md).1.cur.museums =
      acc.1.cur.museums ++ em) ∧
    (∃ ex, (processRecord pops base acc md).1.cur.stats ++
        (processRecord pops base acc md).1.pending =
        (acc.1.cur.stats ++ acc.1.pending) ++ ex) ∧
    (processRecord pops base acc md).2 = (acc.2.1 + 1, acc.2.2 + 1) ∧
    (processRecord pops base acc md).1.poisoned = false ∧
    (processRecord pops base acc md).1.failed = acc.1.failed ∧
    estS (processRecord pops base acc md).1 md := by
  cases hfind : acc.1.cur.cities.find? (cityMatches md) with
  | some c =>
    exact recordTail_clean pops base acc md (gocc_found pops hp hfind) hfind
      ⟨[], (List.append_nil _).symm⟩ rfl rfl hp rfl hclean
  | none =>
    by_cases hcf : statConflict acc.1.cur.stats acc.1.pending
    · have hpr : processRecord pops base acc md =
          ({ acc.1 with poisoned := true, failed := true },
            acc.2.1, acc.2.2) :=
        processRecord_nocity pops base (gocc_conflict pops hp hfind hcf)
      rw [hpr] at hclean
      exact Bool.noConfusion hclean
    · have hc1 : statConflict acc.1.cur.stats acc.1.pending = false := by
        simpa using hcf
      have hfc : (acc.1.cur.cities ++ [newCityRow acc.1.cur md pops]).find?
          (cityMatches md) = some (newCityRow acc.1.cur md pops) := by
        rw [find?_append_none _ hfind]
        exact List.find?_cons_of_pos _ (newCityRow_matches acc.1.cur md pops)
      exact recordTail_clean pops base acc md (gocc_created pops hp hfind hc1)
        hfc ⟨[newCityRow acc.1.cur md pops], rfl⟩ rfl (List.append_nil _)
        hp rfl hclean

/-- The failed flag is monotone along the loop. -/
theorem persistFold_failed_mono (pops : List (List Char × Option PopRec))
    (base : Store) (data : List MuseumRecord) :
    ∀ acc : Sess × Nat × Nat, acc.1.failed = true →
      (List.foldl (processRecord pops base) acc data).1.failed = true := by
  induction data with
  | nil => intro acc h; exact h
  | cons hd t ih =>
    intro acc h
    rw [List.foldl_cons]
    exact ih (processRecord pops base acc hd)
      (processRecord_failed_mono pops base acc hd h)

/-- An unfailed run of the rest of the loop means the step before it was
already unfailed. -/
theorem step_clean_of_fold (pops : List (List Char × Option PopRec))
    (base : Store) (t : List MuseumRecord) (acc : Sess × Nat × Nat)
    (hd : MuseumRecord)
    (hclean : (List.foldl (processRecord pops base)
      (processRecord pops base acc hd) t).1.failed = false) :
    (processRecord pops base acc hd).1.failed = false := by
  cases hsf : (processRecord pops base acc hd).1.failed with
  | false => rfl
  | true =>
    rw [persistFold_failed_mono pops base t _ hsf] at hclean
    exact Bool.noConfusion hclean

/-- An established record stays established along an unfailed suffix of
the loop. -/
theorem persistFold_estS_mono (pops : List (List Char × Option PopRec))
    (base : Store) (data : List MuseumRecord) :
    ∀ (acc : Sess × Nat × Nat) (md : MuseumRecord),
      acc.1.poisoned = false →
      (List.foldl (processRecord pops base) acc data).1.failed = false →
      estS acc.1 md →
      estS (List.foldl (processRecord pops base) acc data).1 md := by
  induction data with
  | nil => intro acc md _ _ h; exact h
  | cons hd t ih =>
    intro acc md hp hclean h
    rw [List.foldl_cons] at hclean ⊢
    obtain ⟨h1, h2, h3, _, h5, _, _⟩ := processRecord_clean pops base acc hd hp
      (step_clean_of_fold pops base t acc hd hclean)
    exact ih (processRecord pops base acc hd) md h5 hclean
      (estS_of_extend h1 h2 h3 h)

/-- An unfailed loop from an unpoisoned start establishes every record it
processed. -/
theorem persistFold_estS_all (pops : List (List Char × Option PopRec))
    (base : Store) (data : List MuseumRecord) :
    ∀ acc : Sess × Nat × Nat, acc.1.poisoned = false →
      (List.foldl (processRecord pops base) acc data).1.failed = false →
      ∀ md, md ∈ data →
        estS (List.foldl (processRecord pops base) acc data).1 md := by
  induction data with
  | nil => intro acc _ _ md h; cases h
  | cons hd t ih =>
    intro acc hp hclean md hmem
    rw [List.foldl_cons] at hclean ⊢
    have hstep := step_clean_of_fold pops base t acc hd hclean
    obtain ⟨_, _, _, _, h5, _, h7⟩ := processRecord_clean pops base acc hd hp hstep
    cases List.mem_cons.mp hmem with
    | inl heq =>
      subst heq
      exact persistFold_estS_mono pops base t
        (processRecord pops base acc md) md h5 hclean h7
    | inr hmem2 => exact ih (processRecord pops base acc hd) h5 hclean md hmem2

/-- An unfailed loop from an unpoisoned start increments both counters
once per record. -/
theorem persistFold_counts_clean (pops : List (List Char × Option PopRec))
    (base : Store) (data : List MuseumRecord) :
    ∀ acc : Sess × Nat × Nat, acc.1.poisoned = false →
      (List.foldl (processRecord pops base) acc data).1.failed = false →
      (List.foldl (processRecord pops base) acc data).2 =
        (acc.2.1 + data.length, acc.2.2 + data.length) := by
  induction data with
  | nil =>
    intro acc _ _
    show acc.2 = (acc.2.1 + 0, acc.2.2 + 0)
    rw [Nat.add_zero, Nat.add_zero]
  | cons hd t ih =>
    intro acc hp hclean
    rw [List.foldl_cons] at hclean ⊢
    have hstep := step_clean_of_fold pops base t acc hd hclean
    obtain ⟨_, _, _, h4, h5, _, _⟩ := processRecord_clean pops base acc hd hp hstep
    rw [ih (processRecord pops base acc hd) h5 hclean, h4]
    simp only [List.length_cons, Prod.mk.injEq]
    exact ⟨by omega, by omega⟩

/-- A record established on the session is fully established on the
committed store. -/
theorem fullyEstablished_commit {sess : Sess} {md : MuseumRecord}
    (h : estS sess md) : fullyEstablished (commitStore sess) md := h

/-- Over a store that fully establishes every record of the batch, the
loop is a no-op on the session and counts every record on both
counters. -/
theorem persistFold_fullyEst (pops : List (List Char × Option PopRec))
    (base : Store) (data : List MuseumRecord) :
    ∀ (st : Store) (a b : Nat),
      (∀ md, md ∈ data → fullyEstablished st md) →
      List.foldl (processRecord pops base) ((⟨st, [], false, false⟩ : Sess), a, b)
          data =
        ((⟨st, [], false, false⟩ : Sess), a + data.length, b + data.length) := by
  induction data with
  | nil =>
    intro st a b _
    show ((⟨st, [], false, false⟩ : Sess), a, b) =
      ((⟨st, [], false, false⟩ : Sess), a + 0, b + 0)
    rw [Nat.add_zero, Nat.add_zero]
  | cons hd t ih =>
    intro st a b hall
    obtain ⟨c, hc, m, hm, hcnt⟩ := hall hd (List.mem_cons_self hd t)
    have h1 : (⟨st, [], false, false⟩ : Sess).poisoned = false := rfl
    have hg := gocc_found pops h1 hc
    have hcm : create_museum base ⟨st, [], false, false⟩ hd c =
        (⟨st, [], false, false⟩, some m) := cm_found base hm
    have hs : (((⟨st, [], false, false⟩ : Sess)).cur.stats.find?
        (fun s => s.museumId == m.id)).isSome := countStatsFor_isSome hcnt
    have hcms : create_museum_stats ⟨st, [], false, false⟩ m hd =
        ⟨st, [], false, false⟩ := cms_skip hd hs
    have hrt : recordTail base hd c ⟨st, [], false, false⟩ =
        (⟨st, [], false, false⟩, true) := by
      rw [recordTail_some base hd c hcm, hcms]
    have hstep : processRecord pops base ((⟨st, [], false, false⟩ : Sess), a, b)
        hd = ((⟨st, [], false, false⟩ : Sess), a + 1, b + 1) := by
      have h2 := @processRecord_city pops base
        ((⟨st, [], false, false⟩ : Sess), a, b) hd ⟨st, [], false, false⟩ c hg
        ⟨st, [], false, false⟩ true hrt
      rw [h2]
      rfl
    rw [List.foldl_cons, hstep,
      ih st (a + 1) (b + 1) (fun md hmd => hall md (List.mem_cons_of_mem hd hmd))]
    simp only [List.length_cons, Prod.mk.injEq]
    exact ⟨trivial, by omega, by omega⟩

/-- C4 (counterexample).  Running the merge engine twice on the same
candidate data and store can change the Museum row count: on cxBatch the
first run commits one city and one museum (the Orsay creation was rolled
back by the colliding stat flush), and the second run, finding a stat row
for the Louvre and pending nothing, creates the Orsay museum, so the
museum count grows from 1 to 2 after the second run. -/
theorem merge_engine_not_idempotent :
    (run_etl cxBatch [] emptyStore).2 =
      [("status", SummVal.str "ok"), ("museums", SummVal.nat 3),
        ("cities", SummVal.nat 4)] ∧
    (run_etl cxBatch [] emptyStore).1.cities.length = 1 ∧
    (run_etl cxBatch [] emptyStore).1.museums.length = 1 ∧
    (run_etl cxBatch [] (run_etl cxBatch [] emptyStore).1).1.cities.length = 1 ∧
    (run_etl cxBatch [] (run_etl cxBatch [] emptyStore).1).1.museums.length = 2 := by
  decide

/-- C4 (amended).  For a run that hits no database error, running the
merge engine a second time on the committed store returns that store
unchanged, so in particular the City and Museum row counts are unchanged
after the second run. -/
theorem merge_engine_idempotent_of_clean (data : List MuseumRecord)
    (pops : List (List Char × Option PopRec)) (st : Store)
    (h : runClean pops data st) :
    (run_etl data pops (run_etl data pops st).1).1 = (run_etl data pops st).1 ∧
    (run_etl data pops (run_etl data pops st).1).1.cities.length =
      (run_etl data pops st).1.cities.length ∧
    (run_etl data pops (run_etl data pops st).1).1.museums.length =
      (run_etl data pops st).1.museums.length := by
  obtain ⟨hf, hpz, hcc⟩ := h
  suffices hmain : (run_etl data pops (run_etl data pops st).1).1 =
      (run_etl data pops st).1 by
    exact ⟨hmain, by rw [hmain], by rw [hmain]⟩
  cases data with
  | nil => rfl
  | cons hd t =>
    have hcf1 : commitFails (persistLoop pops (hd :: t) st).1 = false := by
      unfold commitFails
      rw [hpz, hcc]
      rfl
    have hasync1 : run_async_etl (hd :: t) pops st =
        .ok (commitStore (persistLoop pops (hd :: t) st).1,
          [("status", SummVal.str "ok"),
            ("museums", SummVal.nat (persistLoop pops (hd :: t) st).2.1),
            ("cities", SummVal.nat (persistLoop pops (hd :: t) st).2.2)]) := by
      unfold run_async_etl
      rw [if_neg (by simp), if_neg (by simp [hcf1])]
    have h1 : (run_etl (hd :: t) pops st).1 =
        commitStore (persistLoop pops (hd :: t) st).1 := by
      unfold run_etl
      rw [hasync1]
    have hEst : ∀ md, md ∈ hd :: t →
        fullyEstablished (commitStore (persistLoop pops (hd :: t) st).1) md := by
      intro md hm
      exact fullyEstablished_commit
        (persistFold_estS_all pops st (hd :: t) (initSess st, 0, 0) rfl hf md hm)
    have hpl2 : persistLoop pops (hd :: t)
          (commitStore (persistLoop pops (hd :: t) st).1) =
        ((⟨commitStore (persistLoop pops (hd :: t) st).1, [], false, false⟩ :
            Sess),
          0 + (hd :: t).length, 0 + (hd :: t).length) :=
      persistFold_fullyEst pops (commitStore (persistLoop pops (hd :: t) st).1)
        (hd :: t) (commitStore (persistLoop pops (hd :: t) st).1) 0 0 hEst
    have hcf2 : commitFails (persistLoop pops (hd :: t)
        (commitStore (persistLoop pops (hd :: t) st).1)).1 = false := by
      rw [hpl2]
      rfl
    have hasync2 : run_async_etl (hd :: t) pops
          (commitStore (persistLoop pops (hd :: t) st).1) =
        .ok (commitStore (persistLoop pops (hd :: t)
            (commitStore (persistLoop pops (hd :: t) st).1)).1,
          [("status", SummVal.str "ok"),
            ("museums", SummVal.nat (persistLoop pops (hd :: t)
              (commitStore (persistLoop pops (hd :: t) st).1)).2.1),
            ("cities", SummVal.nat (persistLoop pops (hd :: t)
              (commitStore (persistLoop pops (hd :: t) st).1)).2.2)]) := by
      unfold run_async_etl
      rw [if_neg (by simp), if_neg (by simp [hcf2])]
    have h2 : (run_etl (hd :: t) pops
          (commitStore (persistLoop pops (hd :: t) st).1)).1 =
        commitStore (persistLoop pops (hd :: t)
          (commitStore (persistLoop pops (hd :: t) st).1)).1 := by
      unfold run_etl
      rw [hasync2]
    rw [h1, h2, hpl2]
    exact commitStore_initSess (commitStore (persistLoop pops (hd :: t) st).1)

/-- C4 (witness).  The amended idempotence theorem applied to a clean
two-record batch over the empty store. -/
theorem merge_engine_idempotent_of_clean_witness :
    runClean [] [louvreRec, orsayRec] emptyStore ∧
    (run_etl [louvreRec, orsayRec] []
        (run_etl [louvreRec, orsayRec] [] emptyStore).1).1 =
      (run_etl [louvreRec, orsayRec] [] emptyStore).1 :=
  ⟨by decide,
    (merge_engine_idempotent_of_clean [louvreRec, orsayRec] [] emptyStore
      (by decide)).1⟩

/-- C5 (counterexample).  One run over two observations of the same
museum with different years commits two MuseumStat rows for that one
museum: the first stat stays pending and is invisible to the flushed-only
existence check of the second. -/
theorem museum_stats_not_first_only :
    (run_etl [louvre2023, louvre2024] [] emptyStore).1.museums =
      [⟨1, "Louvre".data, some 1⟩] ∧
    countStatsFor (run_etl [louvre2023, louvre2024] [] emptyStore).1.stats 1 =
      2 := by
  decide

/-- C5 (amended).  The existence check of the stat phase is keyed by the
museum id alone but consults only flushed rows: a flushed stat row for
the museum makes the phase skip whatever the new record's year, while
with no flushed stat row a pending row is added unconditionally — in
particular a pending same-run stat for the same museum never blocks it. -/
theorem museum_stats_check_flushed_only :
    (∀ (sess : Sess) (m : MuseumRow) (md : MuseumRecord),
      1 ≤ countStatsFor sess.cur.stats m.id →
      create_museum_stats sess m md = sess) ∧
    (∀ (sess : Sess) (m : MuseumRow) (md : MuseumRecord),
      countStatsFor sess.cur.stats m.id = 0 →
      create_museum_stats sess m md =
        { sess with pending :=
            sess.pending ++ [⟨m.id, md.year, md.visitors⟩] }) := by
  constructor
  · intro sess m md h
    exact cms_skip md (countStatsFor_isSome h)
  · intro sess m md h
    exact cms_add md (countStatsFor_none h)

/-- C5 (witness).  The flushed-only theorem applied to a session with a
flushed Louvre stat (the 2024 observation is skipped) and to a session
whose only Louvre stat is pending (a second stat row is added next to
it). -/
theorem museum_stats_check_flushed_only_witness :
    (1 ≤ countStatsFor (initSess statStore).cur.stats louvreRow.id ∧
      create_museum_stats (initSess statStore) louvreRow louvre2024 =
        initSess statStore) ∧
    (countStatsFor pendSess.cur.stats louvreRow.id = 0 ∧
      create_museum_stats pendSess louvreRow louvre2024 =
        { pendSess with pending := pendSess.pending ++
            [⟨louvreRow.id, louvre2024.year, louvre2024.visitors⟩] }) :=
  ⟨⟨by decide,
      museum_stats_check_flushed_only.1 (initSess statStore) louvreRow
        louvre2024 (by decide)⟩,
    ⟨by decide,
      museum_stats_check_flushed_only.2 pendSess louvreRow louvre2024
        (by decide)⟩⟩

/-- C6.  A throwing fetcher yields an empty candidate list, and on an
empty candidate list the ETL run returns the fixed error summary with
zero counts over an untouched store, both through the async body and
through the catching wrapper. -/
theorem run_async_etl_error_summary :
    (∀ e : String, fetch_most_visited_museums (.error e) = []) ∧
    (∀ (pops : List (List Char × Option PopRec)) (st : Store),
      run_async_etl [] pops st =
        .ok (st, [("status", SummVal.str "error"), ("museums", SummVal.nat 0),
          ("cities", SummVal.nat 0),
          ("error", SummVal.str "No museum data available from Wikidata")])) ∧
    (∀ (pops : List (List Char × Option PopRec)) (st : Store),
      run_etl [] pops st =
        (st, [("status", SummVal.str "error"), ("museums", SummVal.nat 0),
          ("cities", SummVal.nat 0),
          ("error", SummVal.str "No museum data available from Wikidata")])) :=
  ⟨fun _ => rfl, fun _ _ => rfl, fun _ _ => rfl⟩

/-- C9 (counterexample).  Two candidate records in the same city commit a
single City row, yet the summary reports cities = 2: both counters count
records, not distinct entities. -/
theorem summary_counts_counterexample :
    (run_etl [louvreRec, orsayRec] [] emptyStore).2 =
      [("status", SummVal.str "ok"), ("museums", SummVal.nat 2),
        ("cities", SummVal.nat 2)] ∧
    (run_etl [louvreRec, orsayRec] [] emptyStore).1.cities.length = 1 := by
  decide

/-- C9 (amended).  On a non-empty batch, a run that hits no database
error reports museums and cities both equal to the number of candidate
records — once per record, whether the entity was created or found — and
a failing commit raises out of the async body, so the run reports the
error summary with both counts zero over the unchanged store. -/
theorem summary_counts_per_record :
    (∀ (data : List MuseumRecord) (pops : List (List Char × Option PopRec))
        (st : Store), data.isEmpty = false → runClean pops data st →
      (run_etl data pops st).2 =
        [("status", SummVal.str "ok"),
          ("museums", SummVal.nat data.length),
          ("cities", SummVal.nat data.length)]) ∧
    (∀ (data : List MuseumRecord) (pops : List (List Char × Option PopRec))
        (st : Store), data.isEmpty = false →
      commitFails (persistLoop pops data st).1 = true →
      ∃ e, run_etl data pops st =
        (st, [("status", SummVal.str "error"), ("error", SummVal.str e),
          ("museums", SummVal.nat 0), ("cities", SummVal.nat 0)])) := by
  constructor
  · intro data pops st hie h
    obtain ⟨hf, hpz, hcc⟩ := h
    have hcf : commitFails (persistLoop pops data st).1 = false := by
      unfold commitFails
      rw [hpz, hcc]
      rfl
    have hcounts : (persistLoop pops data st).2 =
        (0 + data.length, 0 + data.length) :=
      persistFold_counts_clean pops st data (initSess st, 0, 0) rfl hf
    have hetl : run_etl data pops st =
        (commitStore (persistLoop pops data st).1,
          [("status", SummVal.str "ok"),
            ("museums", SummVal.nat (persistLoop pops data st).2.1),
            ("cities", SummVal.nat (persistLoop pops data st).2.2)]) := by
      unfold run_etl run_async_etl
      rw [if_neg (by simp [hie]), if_neg (by simp [hcf])]
    rw [hetl]
    show [("status", SummVal.str "ok"),
        ("museums", SummVal.nat (persistLoop pops data st).2.1),
        ("cities", SummVal.nat (persistLoop pops data st).2.2)] =
      [("status", SummVal.str "ok"),
        ("museums", SummVal.nat data.length),
        ("cities", SummVal.nat data.length)]
    rw [hcounts]
    simp
  · intro data pops st hie hcf
    refine ⟨"IntegrityError: duplicate key value violates unique constraint",
      ?_⟩
    unfold run_etl run_async_etl
    rw [if_neg (by simp [hie]), if_pos hcf]

/-- C9 (witness).  The per-record count theorem applied to a clean
two-record batch and, for the error part, to a batch holding the same
museum twice with the same year, whose pending stat rows collide at
commit. -/
theorem summary_counts_per_record_witness :
    (run_etl [louvreRec, orsayRec] [] emptyStore).2 =
      [("status", SummVal.str "ok"),
        ("museums", SummVal.nat ([louvreRec, orsayRec] : List MuseumRecord).length),
        ("cities", SummVal.nat ([louvreRec, orsayRec] : List MuseumRecord).length)] ∧
    (∃ e, run_etl [louvre2023, louvreDup] [] emptyStore =
      (emptyStore, [("status", SummVal.str "error"), ("error", SummVal.str e),
        ("museums", SummVal.nat 0), ("cities", SummVal.nat 0)])) :=
  ⟨summary_counts_per_record.1 [louvreRec, orsayRec] [] emptyStore rfl
      (by decide),
    summary_counts_per_record.2 [louvre2023, louvreDup] [] emptyStore rfl
      (by decide)⟩

/-- C10.  When the population lookup resolves nothing for the city, the
city phase still creates the City row, with population 0, population
year 2023 and no external identifier, rather than leaving the fields
null; and a batch persisted through such a lookup failure puts a
zero-population row for that city into the /features join. -/
theorem population_failure_defaults :
    (∀ (sess : Sess) (md : MuseumRecord)
        (pops : List (List Char × Option PopRec)),
      sess.poisoned = false →
      statConflict sess.cur.stats sess.pending = false →
      sess.cur.cities.find? (cityMatches md) = none →
      lookupPop pops md.city = none →
      (get_or_create_city pops sess md).2 =
        some (newCityRow sess.cur md pops) ∧
      (newCityRow sess.cur md pops).population = 0 ∧
      (newCityRow sess.cur md pops).populationYear = 2023 ∧
      (newCityRow sess.cur md pops).wikidataId = none ∧
      (get_or_create_city pops sess md).1.cur.cities =
        sess.cur.cities ++ [newCityRow sess.cur md pops]) ∧
    (∀ (md : MuseumRecord) (pops : List (List Char × Option PopRec)),
      lookupPop pops md.city = none →
      ∃ row, row ∈ (load_features (run_etl [md] pops emptyStore).1).rows ∧
        row.population = 0 ∧ row.visitors = md.visitors ∧
        row.cityName = md.city ∧ row.museumName = md.name) := by
  constructor
  · intro sess md pops h1 h2 h3 hp
    have hg := gocc_created pops h1 h3 h2
    refine ⟨?_, ?_, ?_, ?_, ?_⟩
    · exact congrArg Prod.snd hg
    · simp only [newCityRow, hp]
    · simp only [newCityRow, hp]
    · simp only [newCityRow, hp]
    · exact congrArg (fun p => p.1.cur.cities) hg
  · intro md pops hp
    refine ⟨⟨1, md.name, 1, md.city, md.visitors,
        (newCityRow emptyStore md pops).population⟩, ?_, ?_, rfl, rfl, rfl⟩
    · exact List.mem_singleton.mpr rfl
    · simp only [newCityRow, hp]

/-- C10 (witness).  The defaults theorem applied to a fresh session over
the empty store, an empty population source and the Louvre record, for
both the session-level and the join-level part. -/
theorem population_failure_defaults_witness :
    ((get_or_create_city [] (initSess emptyStore) louvreRec).2 =
        some (newCityRow (initSess emptyStore).cur louvreRec []) ∧
      (newCityRow (initSess emptyStore).cur louvreRec []).population = 0 ∧
      (newCityRow (initSess emptyStore).cur louvreRec []).populationYear =
        2023 ∧
      (newCityRow (initSess emptyStore).cur louvreRec []).wikidataId = none ∧
      (get_or_create_city [] (initSess emptyStore) louvreRec).1.cur.cities =
        (initSess emptyStore).cur.cities ++
          [newCityRow (initSess emptyStore).cur louvreRec []]) ∧
    (∃ row, row ∈ (load_features (run_etl [louvreRec] [] emptyStore).1).rows ∧
      row.population = 0 ∧ row.visitors = louvreRec.visitors ∧
      row.cityName = louvreRec.city ∧ row.museumName = louvreRec.name) :=
  ⟨population_failure_defaults.1 (initSess emptyStore) louvreRec []
      (by decide) (by decide) (by decide) (by decide),
    population_failure_defaults.2 louvreRec [] (by decide)⟩

end MuseumDemo
